import Mathlib

/-!
Verification of the International Fantasy 2025 scoring pipeline.

The repository carries three generations of the pipeline:
  * `functions/src/scoring.ts` (pure rulebook) together with the aggregator that
    imports it (second document inside `functions/src/firebaseAdmin.ts`),
  * `functions/src/index.ts` (self-contained cloud functions, called V1 below),
  * the revised cloud functions in `src/unnamed/part_003` (called V2 below),
plus a lineup-submission snippet in `src/unnamed/part_004`.

Numbers: the source computes points in JS floating point; here point values are
rationals (exact for the 0.02 / 0.2 / 0.5 / 1.5 weights involved).  Match
telemetry fields are integers after the `toInt` coercion the source applies at
every use, so they are embedded as `Int` (bit masks as `Nat`).
-/

/-! ### Generic JS-style helpers -/

/-- JS `a || b` for strings: the empty string is falsy. -/
def jsOrS (a b : String) : String := if a = "" then b else a

/-- JS `a || b` for numbers: `0` is falsy. -/
def jsOrInt (a b : Int) : Int := if a = 0 then b else a

/-- Value of a list of decimal digit characters. -/
def digitsVal (l : List Char) : Nat := l.foldl (fun a c => a * 10 + (c.toNat - 48)) 0

/-- JS `parseInt(s, 10) || 0`: parse an optional sign followed by leading
digits; anything unparsable (NaN) collapses to 0.  (Leading whitespace,
which `parseInt` also skips, does not occur in the inputs we model.) -/
def jsToInt (s : String) : Int :=
  match s.data with
  | '-' :: rest => -(digitsVal (rest.takeWhile Char.isDigit) : Int)
  | '+' :: rest => (digitsVal (rest.takeWhile Char.isDigit) : Int)
  | l => (digitsVal (l.takeWhile Char.isDigit) : Int)

/-- The regex test `/^\d+$/.test(s)`. -/
def isDigitString (s : String) : Bool := s.data.length != 0 && s.data.all Char.isDigit

/-- The regex test `/^\d{8}$/.test(s)` used on `dateKey` arguments. -/
def isEightDigits (s : String) : Bool := s.data.length == 8 && s.data.all Char.isDigit

/-- JS `Number(s.slice(a, b))` as used on `dateKey` digit groups: the value
of the selected character range when it is all digits; a non-numeric string
would be NaN in JS and is collapsed to 0 here. -/
def sliceNum (s : String) (a b : Nat) : Int :=
  let cs := (s.data.drop a).take (b - a)
  if cs ≠ [] ∧ cs.all Char.isDigit then (digitsVal cs : Int) else 0

/-- ASCII lower-casing, the fragment of JS `toLowerCase` exercised by team
names in this code base. -/
def charToLower (c : Char) : Char :=
  if 'A' ≤ c ∧ c ≤ 'Z' then Char.ofNat (c.toNat + 32) else c

/-- Replace every maximal run of whitespace by a single underscore, the
effect of `replace(/\s+/g, "_")`. -/
def squashWs : List Char → List Char
  | [] => []
  | [c] => [if c.isWhitespace then '_' else c]
  | c1 :: c2 :: rest =>
    if c1.isWhitespace && c2.isWhitespace then squashWs (c2 :: rest)
    else (if c1.isWhitespace then '_' else c1) :: squashWs (c2 :: rest)

/-- JS `trim()` on the character list of a string. -/
def trimChars (l : List Char) : List Char :=
  ((l.dropWhile Char.isWhitespace).reverse.dropWhile Char.isWhitespace).reverse

/-- `teamKey` of index.ts / part_003:
`String(x ?? "").trim().toLowerCase().replace(/\s+/g, "_")`. -/
def teamKey (s : String) : String :=
  String.mk (squashWs ((trimChars s.data).map charToLower))

/-- JS `Number(x.toFixed(2))`: round to two decimals, ties away from zero
(exact on every value this pipeline produces, which are multiples of 1/100). -/
def roundTo2 (q : ℚ) : ℚ :=
  if 0 ≤ q then ((⌊q * 100 + 1 / 2⌋ : ℤ) : ℚ) / 100
  else -(((⌊-q * 100 + 1 / 2⌋ : ℤ) : ℚ) / 100)

/-! ### Calendar arithmetic (the fragment of `Date.UTC` / `getUTC*` used).
Days are counted from the Unix epoch using the standard civil-calendar
conversion, which is exactly the ECMAScript MakeDay computation. -/

/-- Days from March 1 to the first day of month `m` (civil calendar shifted
so the year starts in March). -/
def doyFromMonth (m : Int) : Int := (153 * (if 2 < m then m - 3 else m + 9) + 2) / 5

/-- Days since 1970-01-01 of the civil date `y-m-d` (`1 ≤ m ≤ 12`; `d` may
be out of range, matching the day arithmetic of ECMAScript MakeDay). -/
def civilDays (y m d : Int) : Int :=
  let yy := if m ≤ 2 then y - 1 else y
  let era := Int.fdiv yy 400
  let yoe := yy - era * 400
  let doy := doyFromMonth m + (d - 1)
  let doe := yoe * 365 + Int.fdiv yoe 4 - Int.fdiv yoe 100 + doy
  era * 146097 + doe - 719468

/-- Civil date `(y, m, d)` of a day count since 1970-01-01. -/
def civilFromDays (z0 : Int) : Int × Int × Int :=
  let z := z0 + 719468
  let era := Int.fdiv z 146097
  let doe := z - era * 146097
  let yoe := Int.fdiv (doe - Int.fdiv doe 1460 + Int.fdiv doe 36524 - Int.fdiv doe 146096) 365
  let y := yoe + era * 400
  let doy := doe - (365 * yoe + Int.fdiv yoe 4 - Int.fdiv yoe 100)
  let mp := Int.fdiv (5 * doy + 2) 153
  let d := doy - Int.fdiv (153 * mp + 2) 5 + 1
  let m := if mp < 10 then mp + 3 else mp - 9
  (if m ≤ 2 then y + 1 else y, m, d)

/-- `Date.UTC(y, mIdx, d, h, 0, 0)` in milliseconds; `mIdx` is the 0-based
month index and is normalized into the year exactly as ECMAScript does, and
the ECMAScript MakeFullYear rule maps a year argument from 0 to 99 to
1900 + year before the day computation. -/
def jsDateUTC (y mIdx d h : Int) : Int :=
  let yr := if 0 ≤ y ∧ y ≤ 99 then 1900 + y else y
  let ym := yr + Int.fdiv mIdx 12
  let mn := Int.emod mIdx 12
  (civilDays ym (mn + 1) d * 24 + h) * 3600000

/-- Zero-padding to two digits, `String(n).padStart(2, "0")`. -/
def pad2 (n : Int) : String := if n < 10 then "0" ++ toString n else toString n

/-- `yyyymmddFromUTC(new Date(ms))` of index.ts / part_003. -/
def yyyymmddFromMs (ms : Int) : String :=
  let c := civilFromDays (Int.fdiv ms 86400000)
  toString c.1 ++ pad2 c.2.1 ++ pad2 c.2.2

/-- `getUTCHours()` of a millisecond timestamp. -/
def jsGetUTCHours (t : Int) : Int := Int.emod (Int.fdiv t 3600000) 24

/-! ### Data model -/

/-- One objective event of a match record.  The source reads the fields
`type` (called `otype` here), `player_slot` and, in scoring.ts only, `team`. -/
structure Objective where
  otype : String
  player_slot : Int
  team : Int
deriving DecidableEq

/-- One raw per-player stat row of a match record.  `account_id` is `none`
when the provider omitted it (JS `undefined`/`null`); the two roshan counter
spellings mirror `p?.roshans_killed ?? p?.roshan_kills ?? 0`. -/
structure RawPlayer where
  account_id : Option Int
  player_slot : Int
  kills : Int
  deaths : Int
  assists : Int
  last_hits : Int
  denies : Int
  obs_placed : Int
  camps_stacked : Int
  roshans_killed : Option Int
  roshan_kills : Option Int
deriving DecidableEq

/-- The cached match document (interface `MatchDoc`); `updatedAt` (a server
timestamp) is not modelled. -/
structure MatchDoc where
  match_id : Int
  series_id : Int
  series_type : Int
  radiant_team_id : Int
  dire_team_id : Int
  radiant_win : Bool
  duration : Int
  tower_status_radiant : Nat
  tower_status_dire : Nat
  barracks_status_radiant : Nat
  barracks_status_dire : Nat
  objectives : List Objective
  players : List RawPlayer
  start_time : Int
  radiant_name : String
  dire_name : String
  tid : String
  dateKey : String
  complete : Bool
deriving DecidableEq

/-- A raw OpenDota match-detail payload as consumed by `upsertMatchDoc`.
The camelCase alternates read through `??` (`matchId`, `seriesId`,
`seriesType`) are modelled as already collapsed into the snake_case field;
`startTimeAlt` keeps the `start_time || startTime` fallback, which the
source applies to the date key but not to the stored `start_time`. -/
structure RawMatch where
  match_id : Int
  series_id : Int
  series_type : Int
  radiant_team_id : Int
  dire_team_id : Int
  radiant_win : Bool
  duration : Int
  tower_status_radiant : Nat
  tower_status_dire : Nat
  barracks_status_radiant : Nat
  barracks_status_dire : Nat
  objectives : List Objective
  players : List RawPlayer
  start_time : Int
  startTimeAlt : Int
  radiant_name : String
  dire_name : String
deriving DecidableEq

/-- One row of a league match list as consumed by the poller; `match_id`
is the collapsed value of `toInt(row.match_id || row.matchId)`. -/
structure ListRow where
  match_id : Int
  start_time : Int
deriving DecidableEq

/-- A stored lineup (interface `LineupDoc`); the lock flag and timestamps
play no role in the scoring claims. -/
structure LineupDoc where
  captain : String
  cores : List String
  supports : List String
  teamCard : String
  ownerUid : String
  mid : String
  managerName : Option String
deriving DecidableEq

/-- The per-player summary row built by `summarizePlayers`. -/
structure SummRow where
  id : String
  kills : Int
  deaths : Int
  assists : Int
  last_hits : Int
  denies : Int
  obs_placed : Int
  camps_stacked : Int
  player_slot : Int
  isRadiant : Bool
deriving DecidableEq

/-- A V1 leaderboard entry (`LeaderboardEntry` of index.ts). -/
structure EntryV1 where
  mid : String
  managerName : Option String
  totalPoints : ℚ
deriving DecidableEq

/-- One roster-breakdown item of a V2 leaderboard entry; the pretty team
name looked up from the `teams` collection is not modelled (it never feeds
into any point value). -/
structure RosterItem where
  role : String
  rid : String
  points : ℚ
deriving DecidableEq

/-- A V2 leaderboard entry (`LeaderboardEntry` of part_003). -/
structure EntryV2 where
  mid : String
  managerName : Option String
  totalPoints : ℚ
  roster : List RosterItem
deriving DecidableEq

/-- Result pair of `sweepBonus` / `roshansByTeam` (`{ radiant, dire }`). -/
structure SidePair where
  radiant : ℚ
  dire : ℚ
deriving DecidableEq

/-! ### scoring.ts (pure rulebook) -/

/-- The stat-row argument type of `scorePlayerMatch`; optional fields mirror
`?? 0` defaulting in the source. -/
structure PStats where
  kills : Int
  assists : Int
  deaths : Int
  last_hits : Int
  denies : Int
  obs_placed : Option Int
  sen_placed : Option Int
  camps_stacked : Option Int
  win : Bool
deriving DecidableEq

/-- `scorePlayerMatch` of scoring.ts. -/
def scorePlayerMatch (p : PStats) (durationSeconds : Int) : ℚ :=
  let wards : Int := p.obs_placed.getD 0 + p.sen_placed.getD 0
  let pts : ℚ :=
    (p.kills : ℚ) * 3 + (p.assists : ℚ) * 2 + (p.deaths : ℚ) * (-1)
      + (p.last_hits : ℚ) * 0.02 + (p.denies : ℚ) * 0.02
      + (wards : ℚ) * 0.2 + ((p.camps_stacked.getD 0 : Int) : ℚ) * 0.5
  let pts := pts + (if p.win then (15 : ℚ) + (if durationSeconds < 25 * 60 then 15 else 0) else 0)
  let pts := pts + (if 20 < p.kills + p.assists then (2 : ℚ) else 0)
  pts

/-- The iterative popcount of scoring.ts (`while (x) x &= x - 1`), with the
loop bounded by a fuel argument that dominates its iteration count. -/
def popcountAux : Nat → Nat → Nat
  | 0, _ => 0
  | fuel + 1, x => if x = 0 then 0 else popcountAux fuel (x &&& (x - 1)) + 1

/-- `popcount` of scoring.ts. -/
def popcount (x : Nat) : Nat := popcountAux x x

/-- The two sides of a match. -/
inductive Side where
  | radiant
  | dire
deriving DecidableEq

/-- `towersDestroyedBy` of scoring.ts: note that the radiant side counts the
radiant status mask `tr`, i.e. its own surviving towers. -/
def towersDestroyedBy (side : Side) (tr td : Nat) : ℚ :=
  11 - (popcount (match side with | .radiant => tr | .dire => td) : ℚ)

/-- `raxDestroyedBy` of scoring.ts (same own-mask selection as the towers). -/
def raxDestroyedBy (side : Side) (br bd : Nat) : ℚ :=
  6 - (popcount (match side with | .radiant => br | .dire => bd) : ℚ)

/-- `roshansForSide` of scoring.ts: bucket roshan-kill events by their `team`
field (2 = radiant, 3 = dire). -/
def roshansForSide (objectives : List Objective) (side : Side) : ℚ :=
  let t : Int := match side with | .radiant => 2 | .dire => 3
  ((objectives.filter (fun o => o.otype == "CHAT_MESSAGE_ROSHAN_KILL" && o.team == t)).length : ℚ)

/-- `firstBloodForSide` of scoring.ts (event type spelled without underscore
in this file, unlike index.ts). -/
def firstBloodForSide (objectives : List Objective) (side : Side) : Bool :=
  let t : Int := match side with | .radiant => 2 | .dire => 3
  objectives.any (fun o => o.otype == "CHAT_MESSAGE_FIRSTBLOOD" && o.team == t)

/-- The argument record of `scoreTeamMatch`. -/
structure TeamArgs where
  side : Side
  tower_status_radiant : Nat
  tower_status_dire : Nat
  barracks_status_radiant : Nat
  barracks_status_dire : Nat
  objectives : List Objective
  radiant_win : Bool
deriving DecidableEq

/-- `scoreTeamMatch` of scoring.ts. -/
def scoreTeamMatch (a : TeamArgs) : ℚ :=
  let teamWon := (a.side == Side.radiant && a.radiant_win) || (a.side == Side.dire && !a.radiant_win)
  let pts : ℚ := towersDestroyedBy a.side a.tower_status_radiant a.tower_status_dire * 1
  let pts := pts + raxDestroyedBy a.side a.barracks_status_radiant a.barracks_status_dire * 1
  let pts := pts + roshansForSide a.objectives a.side * 3
  let pts := pts + (if firstBloodForSide a.objectives a.side then 2 else 0)
  let pts := pts + (if teamWon then 2 else 0)
  pts

/-- `sweepBonus` of scoring.ts: the two `if` statements accumulate into the
`out` record (they are mutually exclusive because a side cannot have both 0
and the threshold of wins). -/
def sweepBonus (seriesType radiantWins direWins : Int) : SidePair :=
  let a : ℚ × ℚ :=
    if seriesType = 1 ∧ (radiantWins = 2 ∨ direWins = 2) then
      (if radiantWins = 2 then (15, 0) else (0, 15))
    else (0, 0)
  let b : ℚ × ℚ :=
    if seriesType = 2 ∧ (radiantWins = 3 ∨ direWins = 3) then
      (if radiantWins = 3 then (15, 0) else (0, 15))
    else (0, 0)
  ⟨a.1 + b.1, a.2 + b.2⟩

/-- `applyCaptainDailyMultiplier` of scoring.ts. -/
def applyCaptainDailyMultiplier (n : ℚ) : ℚ := n * 1.5

/-! ### index.ts (V1 cloud functions) and part_003 (V2): shared helpers.
Definitions below are verbatim-identical in both files unless suffixed V2. -/

/-- `bitCount(n, bits)` of index.ts / part_003. -/
def bitCount (n : Nat) (bits : Nat) : Nat :=
  (List.range bits).countP (fun i => n.testBit i)

/-- `towersDestroyedByRadiant`: counts the opposing (dire) mask. -/
def towersDestroyedByRadiant (m : MatchDoc) : ℚ := 11 - (bitCount m.tower_status_dire 11 : ℚ)

/-- `towersDestroyedByDire`. -/
def towersDestroyedByDire (m : MatchDoc) : ℚ := 11 - (bitCount m.tower_status_radiant 11 : ℚ)

/-- `barracksDestroyedByRadiant`. -/
def barracksDestroyedByRadiant (m : MatchDoc) : ℚ := 6 - (bitCount m.barracks_status_dire 6 : ℚ)

/-- `barracksDestroyedByDire`. -/
def barracksDestroyedByDire (m : MatchDoc) : ℚ := 6 - (bitCount m.barracks_status_radiant 6 : ℚ)

/-- Add `n` to the side selected by a player slot (slot < 128 is radiant). -/
def bumpSlot (p : SidePair) (slot : Int) (n : ℚ) : SidePair :=
  if slot < 128 then { p with radiant := p.radiant + n } else { p with dire := p.dire + n }

/-- `roshansByTeam` of index.ts: count roshan-kill objective events bucketed
by the player slot of the event.  There is no fallback in this version. -/
def roshansByTeam (m : MatchDoc) : SidePair :=
  m.objectives.foldl
    (fun out o =>
      if o.otype == "CHAT_MESSAGE_ROSHAN_KILL" then bumpSlot out o.player_slot 1 else out)
    ⟨0, 0⟩

/-- The roshan counter of a raw player row, `toInt(p?.roshans_killed ??
p?.roshan_kills ?? 0)`. -/
def rkOf (p : RawPlayer) : Int :=
  match p.roshans_killed with
  | some v => v
  | none => match p.roshan_kills with
    | some v => v
    | none => 0

/-- The objective loop of `roshansByTeam` (part_003): accumulate roshan-kill
events by slot and record in `saw` whether any was seen. -/
def roshanObjLoop : List Objective → SidePair → Bool → SidePair × Bool
  | [], out, saw => (out, saw)
  | o :: rest, out, saw =>
    if o.otype == "CHAT_MESSAGE_ROSHAN_KILL" then
      roshanObjLoop rest (bumpSlot out o.player_slot 1) true
    else roshanObjLoop rest out saw

/-- The fallback loop of `roshansByTeam` (part_003): accumulate the positive
per-player roshan counters by slot. -/
def roshanPlayerLoop : List RawPlayer → SidePair → SidePair
  | [], out => out
  | p :: rest, out =>
    let rk := rkOf p
    if 0 < rk then roshanPlayerLoop rest (bumpSlot out p.player_slot (rk : ℚ))
    else roshanPlayerLoop rest out

/-- `roshansByTeam` of part_003: prefer roshan-kill objective events; when
the record has none, fall back to summing the per-player roshan counters,
bucketed by player slot in both cases. -/
def roshansByTeamV2 (m : MatchDoc) : SidePair :=
  let folded := roshanObjLoop m.objectives ⟨0, 0⟩ false
  if folded.2 then folded.1
  else roshanPlayerLoop m.players ⟨0, 0⟩

/-- `firstBloodTeam` of index.ts / part_003 (event type with underscore). -/
def firstBloodTeam (m : MatchDoc) : Option Side :=
  match m.objectives.find? (fun o => o.otype == "CHAT_MESSAGE_FIRST_BLOOD") with
  | none => none
  | some fb => some (if fb.player_slot < 128 then Side.radiant else Side.dire)

/-- The id under which `summarizePlayers` stores a row:
`String(p?.account_id ?? "")`. -/
def playerIdString (p : RawPlayer) : String :=
  match p.account_id with
  | none => ""
  | some v => toString v

/-- One summarized row (the map value built by `summarizePlayers`), or
`none` when the row is dropped for lacking an account id. -/
def mkSummRow (p : RawPlayer) : Option SummRow :=
  if playerIdString p = "" then none
  else some
    { id := playerIdString p
      kills := p.kills, deaths := p.deaths, assists := p.assists
      last_hits := p.last_hits, denies := p.denies
      obs_placed := p.obs_placed, camps_stacked := p.camps_stacked
      player_slot := p.player_slot, isRadiant := p.player_slot < 128 }

/-- `summarizePlayers`: the kept rows in iteration order. -/
def summarizePlayers (m : MatchDoc) : List SummRow := m.players.filterMap mkSummRow

/-- `Map.get` on the summary: `Map.set` overwrites, so a lookup returns the
last kept row carrying the id. -/
def mapGet (rows : List SummRow) (pid : String) : Option SummRow :=
  rows.reverse.find? (fun r => r.id == pid)

/-- The series bucket id, `m.series_id || m.match_id`. -/
def seriesIdOf (m : MatchDoc) : Int := jsOrInt m.series_id m.match_id

/-- First occurrences, in order, of a list of ids — the key iteration order
of a JS `Map` built by insertion. -/
def uniqKeepFirst : List Int → List Int → List Int
  | [], _ => []
  | x :: xs, seen => if x ∈ seen then uniqKeepFirst xs seen else x :: uniqKeepFirst xs (x :: seen)

/-- The distinct series ids of a day, in first-appearance order. -/
def seriesIdsOf (ms : List MatchDoc) : List Int :=
  uniqKeepFirst (ms.map seriesIdOf) []

/-- The per-series win record built by `seriesWinsForDay`: team ids from the
first match of the series, one win counted per match by `radiant_win`. -/
structure SeriesWins where
  radiantTeamId : Int
  radiantWins : Nat
  direTeamId : Int
  direWins : Nat
deriving DecidableEq

/-- `seriesWinsForDay` restricted to one series id. -/
def seriesWinsFor (ms : List MatchDoc) (sid : Int) : Option SeriesWins :=
  match ms.filter (fun m => seriesIdOf m == sid) with
  | [] => none
  | m0 :: rest =>
    some
      { radiantTeamId := m0.radiant_team_id
        radiantWins := (m0 :: rest).countP (fun m => m.radiant_win)
        direTeamId := m0.dire_team_id
        direWins := (m0 :: rest).countP (fun m => !m.radiant_win) }

/-- The sweeping team id of one series in `addSweepBonuses`: a side with at
least 2 wins while the other side has exactly 0 (the series type is never
consulted); `if (!sweepTeamId) continue` drops both the no-sweep case and a
sweeping team whose id is the falsy 0. -/
def sweepTeamOf (ms : List MatchDoc) (sid : Int) : Option Int :=
  match seriesWinsFor ms sid with
  | none => none
  | some w =>
    let t : Int :=
      if 2 ≤ w.radiantWins ∧ w.direWins = 0 then w.radiantTeamId
      else if 2 ≤ w.direWins ∧ w.radiantWins = 0 then w.direTeamId
      else 0
    if t = 0 then none else some t

/-- The roster id list `[lineup.captain, ...cores, ...supports]`. -/
def rosterOf (L : LineupDoc) : List String := L.captain :: (L.cores ++ L.supports)

/-- Whether a roster member appears on the sweeping side in some game of the
series (the `playedSweep` scan of `addSweepBonuses`). -/
def playedForSweep (ms : List MatchDoc) (sid : Int) (pid : String) (t : Int) : Bool :=
  (ms.filter (fun m => seriesIdOf m == sid)).any
    (fun m =>
      match mapGet (summarizePlayers m) pid with
      | none => false
      | some row => (if row.isRadiant then m.radiant_team_id else m.dire_team_id) == t)

/-- The team-card sweep total of `addSweepBonuses` (15 points per swept
series whose team id equals the numeric team card; a team card parsing to
the falsy 0 never collects). -/
def teamSweepPts (L : LineupDoc) (ms : List MatchDoc) : ℚ :=
  ((seriesIdsOf ms).map
    (fun sid =>
      match sweepTeamOf ms sid with
      | none => (0 : ℚ)
      | some t => if jsToInt L.teamCard ≠ 0 ∧ jsToInt L.teamCard = t then 15 else 0)).sum

/-- The player sweep total of `addSweepBonuses` read back for one id: per
swept series, each occurrence of the id in the roster list adds `bonus`
when the player appeared on the sweeping side (`bonus` is 15 in index.ts
and 30 in part_003). -/
def playerSweepPts (bonus : ℚ) (L : LineupDoc) (ms : List MatchDoc) (pid : String) : ℚ :=
  ((seriesIdsOf ms).map
    (fun sid =>
      match sweepTeamOf ms sid with
      | none => (0 : ℚ)
      | some t =>
        if playedForSweep ms sid pid t then ((rosterOf L).count pid : ℚ) * bonus
        else 0)).sum

/-- `isRadiantForTeam` of index.ts / part_003: resolve a team selection to a
side, numeric id first, then normalized names; `none` when nothing matches. -/
def isRadiantForTeam (m : MatchDoc) (teamSel : String) : Option Bool :=
  if teamSel = "" then none
  else
    let idMatch : Option Bool :=
      if isDigitString teamSel then
        if m.radiant_team_id = jsToInt teamSel then some true
        else if m.dire_team_id = jsToInt teamSel then some false
        else none
      else none
    match idMatch with
    | some b => some b
    | none =>
      let rName := teamKey m.radiant_name
      let dName := teamKey m.dire_name
      let sel := teamKey teamSel
      if rName ≠ "" ∧ sel ≠ "" ∧ rName = sel then some true
      else if dName ≠ "" ∧ sel ≠ "" ∧ dName = sel then some false
      else none

/-- The body of `scorePlayerInMatch` after the row lookup succeeded
(identical in index.ts and part_003). -/
def scorePlayerRowPts (row : SummRow) (radiantWin : Bool) (duration : Int) : ℚ :=
  let isWin := (row.isRadiant && radiantWin) || (!row.isRadiant && !radiantWin)
  let pts : ℚ :=
    (row.kills : ℚ) * 3 + (row.assists : ℚ) * 2 + (row.deaths : ℚ) * (-1)
      + (row.last_hits : ℚ) * 0.02 + (row.denies : ℚ) * 0.02
      + (row.obs_placed : ℚ) * 0.2 + (row.camps_stacked : ℚ) * 0.5
  let pts := pts + (if isWin && duration < 25 * 60 then (15 : ℚ) else 0)
  let pts := pts + (if 20 ≤ row.kills + row.assists then (2 : ℚ) else 0)
  let pts := pts + (if isWin then (15 : ℚ) else 0)
  pts

/-- `scorePlayerInMatch` of index.ts / part_003. -/
def scorePlayerInMatch (steam32 : String) (m : MatchDoc) : ℚ :=
  match mapGet (summarizePlayers m) steam32 with
  | none => 0
  | some row => scorePlayerRowPts row m.radiant_win m.duration

/-- `scoreTeamCardInMatch` of index.ts (uses the fallback-free
`roshansByTeam`). -/
def scoreTeamCardInMatch (teamId : String) (m : MatchDoc) : ℚ :=
  match isRadiantForTeam m teamId with
  | none => 0
  | some side =>
    let pts : ℚ := (if side then towersDestroyedByRadiant m else towersDestroyedByDire m) * 1
    let pts := pts + (if side then barracksDestroyedByRadiant m else barracksDestroyedByDire m) * 1
    let ros := roshansByTeam m
    let pts := pts + (if side then ros.radiant else ros.dire) * 3
    let fb := firstBloodTeam m
    let pts := pts +
      (if (fb == some Side.radiant && side) || (fb == some Side.dire && !side) then (2 : ℚ) else 0)
    let pts := pts + (if (side && m.radiant_win) || (!side && !m.radiant_win) then (2 : ℚ) else 0)
    pts

/-- `scoreTeamCardInMatch` of part_003 (identical but for `roshansByTeamV2`;
the dead no-op line about `m.dire_win` is dropped). -/
def scoreTeamCardInMatchV2 (teamId : String) (m : MatchDoc) : ℚ :=
  match isRadiantForTeam m teamId with
  | none => 0
  | some side =>
    let pts : ℚ := (if side then towersDestroyedByRadiant m else towersDestroyedByDire m) * 1
    let pts := pts + (if side then barracksDestroyedByRadiant m else barracksDestroyedByDire m) * 1
    let ros := roshansByTeamV2 m
    let pts := pts + (if side then ros.radiant else ros.dire) * 3
    let fb := firstBloodTeam m
    let pts := pts +
      (if (fb == some Side.radiant && side) || (fb == some Side.dire && !side) then (2 : ℚ) else 0)
    let pts := pts + (if (side && m.radiant_win) || (!side && !m.radiant_win) then (2 : ℚ) else 0)
    pts

/-! ### Day aggregation -/

/-- One V1 leaderboard entry as built inside `scoreDay` of index.ts. -/
def scoreDayV1Entry (ms : List MatchDoc) (L : LineupDoc) : EntryV1 :=
  let cap := L.captain
  let sw := playerSweepPts 15 L ms
  let capPts := (ms.map (scorePlayerInMatch cap)).sum + sw cap
  let corePts :=
    (L.cores.map (fun pid => (ms.map (scorePlayerInMatch pid)).sum + sw pid)).sum
  let supPts :=
    (L.supports.map (fun pid => (ms.map (scorePlayerInMatch pid)).sum + sw pid)).sum
  let teamPts := (ms.map (scoreTeamCardInMatch L.teamCard)).sum + teamSweepPts L ms
  let total := capPts * 1.5 + corePts + supPts + teamPts
  { mid := jsOrS L.ownerUid (jsOrS L.mid "unknown")
    managerName := L.managerName
    totalPoints := roundTo2 total }

/-- The entry list `scoreDay` of index.ts writes to the leaderboard
document: one entry per lineup, in lineup order — the list is not sorted. -/
def scoreDayV1Entries (lineups : List LineupDoc) (ms : List MatchDoc) : List EntryV1 :=
  lineups.map (scoreDayV1Entry ms)

/-- One V2 leaderboard entry as built inside `scoreDay` of part_003 (captain
multiplier on the captain slot, per-slot rounding, roster breakdown; the
`matches` argument is the day's `complete = true` match set selected by the
query). -/
def scoreDayV2Entry (ms : List MatchDoc) (L : LineupDoc) : EntryV2 :=
  let cap := L.captain
  let sw := playerSweepPts 30 L ms
  let capRaw := (ms.map (scorePlayerInMatch cap)).sum + sw cap
  let teamRaw := (ms.map (scoreTeamCardInMatchV2 L.teamCard)).sum + teamSweepPts L ms
  let capPts := capRaw * 1.5
  let roster : List RosterItem :=
    { role := "Captain", rid := cap, points := roundTo2 capPts }
      :: (L.cores.map (fun pid =>
            { role := "Core", rid := pid
              points := roundTo2 ((ms.map (scorePlayerInMatch pid)).sum + sw pid) })
        ++ L.supports.map (fun pid =>
            { role := "Support", rid := pid
              points := roundTo2 ((ms.map (scorePlayerInMatch pid)).sum + sw pid) })
        ++ (if L.teamCard ≠ "" then
              [{ role := "Team", rid := L.teamCard, points := roundTo2 teamRaw }]
            else []))
  let total := (roster.map (fun r => r.points)).sum
  { mid := jsOrS L.ownerUid (jsOrS L.mid "unknown")
    managerName := L.managerName
    totalPoints := roundTo2 total
    roster := roster }

/-- The V2 entry list before the final sort. -/
def scoreDayV2Prelim (lineups : List LineupDoc) (ms : List MatchDoc) : List EntryV2 :=
  lineups.map (scoreDayV2Entry ms)

/-- The descending-total order used by `entries.sort((a, b) =>
b.totalPoints - a.totalPoints)`. -/
def entryGeV2 (a b : EntryV2) : Prop := b.totalPoints ≤ a.totalPoints

instance : DecidableRel entryGeV2 :=
  fun a b => inferInstanceAs (Decidable (b.totalPoints ≤ a.totalPoints))

instance : IsTotal EntryV2 entryGeV2 :=
  ⟨fun a b => (le_total a.totalPoints b.totalPoints).symm⟩

instance : IsTrans EntryV2 entryGeV2 :=
  ⟨fun _ _ _ hab hbc => le_trans hbc hab⟩

/-- The same order on V1 entries (used only to state unsortedness). -/
def entryGeV1 (a b : EntryV1) : Prop := b.totalPoints ≤ a.totalPoints

instance : DecidableRel entryGeV1 :=
  fun a b => inferInstanceAs (Decidable (b.totalPoints ≤ a.totalPoints))

/-- The entry list `scoreDay` of part_003 writes: the built entries sorted
by total points descending (JS sort is stable; a stable insertion sort
models it). -/
def scoreDayV2Entries (lineups : List LineupDoc) (ms : List MatchDoc) : List EntryV2 :=
  List.insertionSort entryGeV2 (scoreDayV2Prelim lineups ms)

/-! ### Match cache (`looksComplete`, `upsertMatchDoc`) and the poller guard -/

/-- `looksComplete` applied to a raw payload: exactly 10 player rows and a
strictly positive duration. -/
def looksComplete (m : RawMatch) : Bool := m.players.length == 10 && m.duration > 0

/-- `looksComplete` applied to a cached document (the poller calls it on the
stored record as well). -/
def looksCompleteDoc (d : MatchDoc) : Bool := d.players.length == 10 && d.duration > 0

/-- The document `upsertMatchDoc` of index.ts writes: a full projection of
the raw payload with freshly derived `dateKey` and `complete`. -/
def toMatchDocV1 (tid : String) (raw : RawMatch) : MatchDoc :=
  { match_id := raw.match_id
    series_id := raw.series_id
    series_type := raw.series_type
    radiant_team_id := raw.radiant_team_id
    dire_team_id := raw.dire_team_id
    radiant_win := raw.radiant_win
    duration := raw.duration
    tower_status_radiant := raw.tower_status_radiant
    tower_status_dire := raw.tower_status_dire
    barracks_status_radiant := raw.barracks_status_radiant
    barracks_status_dire := raw.barracks_status_dire
    objectives := raw.objectives
    players := raw.players
    start_time := raw.start_time
    radiant_name := raw.radiant_name
    dire_name := raw.dire_name
    tid := tid
    dateKey := yyyymmddFromMs (jsOrInt raw.start_time raw.startTimeAlt * 1000)
    complete := looksComplete raw }

/-- The match cache, keyed by `String(doc.match_id)`. -/
def Store : Type := String → Option MatchDoc

/-- `upsertMatchDoc`: a merge-write in which every modelled field is present,
hence a plain replace at the document key. -/
def upsertStore (s : Store) (tid : String) (raw : RawMatch) : Store :=
  fun key =>
    if key = toString (toMatchDocV1 tid raw).match_id then some (toMatchDocV1 tid raw) else s key

/-- One candidate-match step of `pollOpenDota`: skip ids that are falsy,
already complete, or too fresh; otherwise fetch the detail `det` and upsert
it.  `now` is `Date.now()` in milliseconds. -/
def pollStep (now : Int) (tid : String) (s : Store) (row : ListRow) (det : RawMatch) : Store :=
  if row.match_id = 0 then s
  else
    match s (toString row.match_id) with
    | some existing =>
      if existing.complete || looksCompleteDoc existing then s
      else if now - jsOrInt existing.start_time row.start_time * 1000 < 15 * 60 * 1000 then s
      else upsertStore s tid det
    | none =>
      if now - row.start_time * 1000 < 10 * 60 * 1000 then s
      else upsertStore s tid det

/-! ### Lock gate and lineup submission -/

/-- `lockTimestamp(dateKey, lockHourUTC)` of index.ts / part_003:
`Date.UTC(y, m - 1, d, lockHourUTC, 0, 0)` from the three digit groups. -/
def lockTimestamp (dateKey : String) (lockHourUTC : Int) : Int :=
  let y := sliceNum dateKey 0 4
  let m := sliceNum dateKey 4 6 - 1
  let d := sliceNum dateKey 6 8
  jsDateUTC y m d lockHourUTC

/-- Outcome of the `submitLineup` callable of index.ts (the written payload
is summarized by the returned document id). -/
inductive SubmitRes where
  | unauthenticated
  | invalidArgument
  | failedPrecondition
  | ok (docId : String)
deriving DecidableEq

/-- `submitLineup` of index.ts: auth, argument shape, then the lock gate
`Date.now() >= lockTimestamp(dateKey, lockHourUTC)`; `lockHourUTC` is the
tournament value already resolved by `getTournament`. -/
def submitLineup (auth : Option String) (tid dateKey : String) (lockHourUTC now : Int) :
    SubmitRes :=
  match auth with
  | none => SubmitRes.unauthenticated
  | some uid =>
    if tid = "" ∨ ¬ isEightDigits dateKey then SubmitRes.invalidArgument
    else if lockTimestamp dateKey lockHourUTC ≤ now then SubmitRes.failedPrecondition
    else SubmitRes.ok (tid ++ "_" ++ dateKey ++ "_" ++ uid)

/-- Outcome of the `submitLineup` snippet of part_004. -/
inductive SnipRes where
  | err (msg : String)
  | ok (locked : Bool)
deriving DecidableEq

/-- `submitLineup` of part_004: shape checks throw, but the lock is only
recorded — the write happens and `ok` is returned regardless of the hour.
`captain` is `none` when not an integer, `teamCard` is `none` when not a
string; `rolesCores`/`rolesSupports` are the resolved tournament role
counts (`cfg.roles ?? default`). -/
def submitLineupSnippet (auth : Option String) (tid dateKey : String) (captain : Option Int)
    (cores supports : List Int) (teamCard : Option String) (rolesCores rolesSupports : Nat)
    (lockHourUTC now : Int) : SnipRes :=
  match auth with
  | none => SnipRes.err "auth required"
  | some _ =>
    if tid = "" ∨ dateKey = "" then SnipRes.err "tid & dateKey required"
    else
      match captain with
      | none => SnipRes.err "captain steam32 required"
      | some _ =>
        if cores.length ≠ rolesCores then SnipRes.err "need cores"
        else if supports.length ≠ rolesSupports then SnipRes.err "need supports"
        else
          match teamCard with
          | none => SnipRes.err "teamCard orgId required"
          | some _ => SnipRes.ok (lockHourUTC ≤ jsGetUTCHours now)

/-! ### Auxiliary notions used only in theorem statements -/

/-- Whether the player identified by `steam32` is on the winning side of a
match (false when no summarized row carries the id) — the `isWin` condition
of `scorePlayerInMatch`. -/
def isWinOf (steam32 : String) (m : MatchDoc) : Bool :=
  match mapGet (summarizePlayers m) steam32 with
  | none => false
  | some row => (row.isRadiant && m.radiant_win) || (!row.isRadiant && !m.radiant_win)

/-- Whether a match record carries at least one roshan-kill objective event. -/
def hasRoshanEvent (m : MatchDoc) : Bool :=
  m.objectives.any (fun o => o.otype == "CHAT_MESSAGE_ROSHAN_KILL")

/-- Roshan-kill objective events bucketed by the player slot of the event. -/
def roshanEventCounts (m : MatchDoc) : SidePair :=
  { radiant := ((m.objectives.filter
      (fun o => o.otype == "CHAT_MESSAGE_ROSHAN_KILL" && decide (o.player_slot < 128))).length : ℚ)
    dire := ((m.objectives.filter
      (fun o => o.otype == "CHAT_MESSAGE_ROSHAN_KILL" && !decide (o.player_slot < 128))).length : ℚ) }

/-- Sums of the positive per-player roshan counters bucketed by player slot. -/
def roshanCounterSums (m : MatchDoc) : SidePair :=
  { radiant := (m.players.map
      (fun p => if 0 < rkOf p ∧ p.player_slot < 128 then (rkOf p : ℚ) else 0)).sum
    dire := (m.players.map
      (fun p => if 0 < rkOf p ∧ ¬ p.player_slot < 128 then (rkOf p : ℚ) else 0)).sum }

/-! ### Concrete fixtures for counterexamples and witnesses -/

/-- A zeroed raw player row used as a template for fixtures. -/
def blankPlayer : RawPlayer :=
  { account_id := none, player_slot := 0, kills := 0, deaths := 0, assists := 0
    last_hits := 0, denies := 0, obs_placed := 0, camps_stacked := 0
    roshans_killed := none, roshan_kills := none }

/-- A zeroed cached match used as a template for fixtures. -/
def blankMatch : MatchDoc :=
  { match_id := 0, series_id := 0, series_type := 0, radiant_team_id := 0, dire_team_id := 0
    radiant_win := false, duration := 0
    tower_status_radiant := 0, tower_status_dire := 0
    barracks_status_radiant := 0, barracks_status_dire := 0
    objectives := [], players := [], start_time := 0
    radiant_name := "", dire_name := "", tid := "", dateKey := "", complete := false }

/-- A zeroed lineup used as a template for fixtures. -/
def blankLineup : LineupDoc :=
  { captain := "", cores := [], supports := [], teamCard := ""
    ownerUid := "", mid := "", managerName := none }

/-- C1 fixture: one game of a Bo5 in series 9, radiant team 10 beating dire
team 20. -/
def bo5Game (mid : Int) : MatchDoc :=
  { blankMatch with
    match_id := mid, series_id := 9, series_type := 2
    radiant_team_id := 10, dire_team_id := 20, radiant_win := true, duration := 1800 }

/-- C1 fixture: a lineup whose team card is team 10. -/
def lineupTeam10 : LineupDoc := { blankLineup with teamCard := "10", ownerUid := "x", mid := "x" }

/-- C2 fixture: the single scored match — player 100 on radiant wins a long
game with one kill. -/
def mC2 : MatchDoc :=
  { blankMatch with
    match_id := 7, radiant_team_id := 10, dire_team_id := 20, radiant_win := true
    duration := 2000
    players := [{ blankPlayer with account_id := some 100, player_slot := 0, kills := 1 }] }

/-- C2 fixture: a lineup with an empty roster (scores 0). -/
def lineupEmptyA : LineupDoc := { blankLineup with ownerUid := "a", mid := "a" }

/-- C2 fixture: a lineup whose captain is player 100 (scores 27 on `mC2`). -/
def lineupCapB : LineupDoc := { blankLineup with captain := "100", ownerUid := "b", mid := "b" }

/-- C7 fixture: a match with no objective events whose radiant player 100
carries a roshan counter of 2. -/
def mRoshFallback : MatchDoc :=
  { blankMatch with
    match_id := 5, radiant_team_id := 10, dire_team_id := 20, radiant_win := true
    duration := 1800
    players := [{ blankPlayer with
                  account_id := some 100, player_slot := 0, roshans_killed := some 2 }] }

/-- C7 witness fixture: a match with one radiant roshan-kill objective event
and a conflicting per-player counter (the event wins). -/
def mRoshEvent : MatchDoc :=
  { mRoshFallback with
    objectives := [{ otype := "CHAT_MESSAGE_ROSHAN_KILL", player_slot := 3, team := 2 }] }

/-- C8 fixture: a losing stat row with kills + assists exactly 20. -/
def rowKA20 : PStats :=
  { kills := 10, assists := 10, deaths := 0, last_hits := 0, denies := 0
    obs_placed := none, sen_placed := none, camps_stacked := none, win := false }

/-- C8 fixture: the same row with one more assist (kills + assists 21). -/
def rowKA21 : PStats := { rowKA20 with assists := 11 }

/-- C4 fixture: a finished match in which radiant razed every dire structure
while keeping all of its own. -/
def mRadiantRazedAll : MatchDoc :=
  { blankMatch with
    match_id := 4, radiant_team_id := 10, dire_team_id := 20, radiant_win := true
    duration := 2400
    tower_status_radiant := 2047, tower_status_dire := 0
    barracks_status_radiant := 63, barracks_status_dire := 0 }

/-- C4 fixture: the scoring.ts team argument for the radiant side of the
mirror situation — radiant lost every structure and destroyed none. -/
def argsRadiantLostAll : TeamArgs :=
  { side := Side.radiant
    tower_status_radiant := 0, tower_status_dire := 2047
    barracks_status_radiant := 0, barracks_status_dire := 63
    objectives := [], radiant_win := false }

/-- C3 fixture: a complete raw payload for match 42 (ten players, positive
duration, started 2025-09-11 00:00 UTC). -/
def rawFull42 : RawMatch :=
  { match_id := 42, series_id := 3, series_type := 1
    radiant_team_id := 10, dire_team_id := 20, radiant_win := true, duration := 1800
    tower_status_radiant := 1796, tower_status_dire := 0
    barracks_status_radiant := 63, barracks_status_dire := 48
    objectives := [], start_time := 1757548800, startTimeAlt := 0
    radiant_name := "Alpha", dire_name := "Beta"
    players := (List.range 10).map (fun i =>
      { blankPlayer with
        account_id := some (100 + (i : Int))
        player_slot := if i < 5 then (i : Int) else (123 + (i : Int)) }) }

/-- C3 fixture: a later, less complete payload for the same match id — only
nine player rows. -/
def rawNine42 : RawMatch := { rawFull42 with players := rawFull42.players.take 9 }

/-- C3 fixture: the cache after match 42 was upserted complete. -/
def storeWith42 : Store :=
  fun key => if key = "42" then some (toMatchDocV1 "ti2025" rawFull42) else none

/-- C3 fixture: the league-list row for match 42. -/
def row42 : ListRow := { match_id := 42, start_time := 1757548800 }

/-- C9 fixture: a match between teams 1 and 2 named Team Alpha / Team Beta. -/
def mTeams12 : MatchDoc :=
  { blankMatch with
    match_id := 8, radiant_team_id := 1, dire_team_id := 2, radiant_win := true
    duration := 2000, radiant_name := "Team Alpha", dire_name := "Team Beta" }

/-- C10 fixture: a match whose only player row carries account id 5. -/
def mOnlyPlayer5 : MatchDoc :=
  { blankMatch with
    match_id := 6, radiant_win := true, duration := 2000
    players := [{ blankPlayer with account_id := some 5, player_slot := 0, kills := 3 }] }

/-! ### Helper lemmas -/

/-- Closed form of the objective loop: the accumulator gains the bucketed
event counts, and the flag records whether any roshan event was seen. -/
theorem roshanObjLoopEq (objs : List Objective) (acc : SidePair) (saw : Bool) :
    roshanObjLoop objs acc saw
    = (⟨acc.radiant
          + ((objs.filter (fun o =>
              o.otype == "CHAT_MESSAGE_ROSHAN_KILL" && decide (o.player_slot < 128))).length : ℚ),
        acc.dire
          + ((objs.filter (fun o =>
              o.otype == "CHAT_MESSAGE_ROSHAN_KILL" && !decide (o.player_slot < 128))).length : ℚ)⟩,
        saw || objs.any (fun o => o.otype == "CHAT_MESSAGE_ROSHAN_KILL")) := by
  induction objs generalizing acc saw with
  | nil => simp [roshanObjLoop]
  | cons o rest ih =>
    by_cases hr : (o.otype == "CHAT_MESSAGE_ROSHAN_KILL") = true
    · by_cases hs : o.player_slot < 128 <;>
        · simp [roshanObjLoop, hr, hs, ih, bumpSlot, List.filter_cons, Prod.ext_iff]
          try constructor
          all_goals ring
    · simp [roshanObjLoop, hr, ih, List.filter_cons]

/-- Closed form of the fallback loop: the accumulator gains the bucketed
sums of the positive per-player roshan counters. -/
theorem roshanPlayerLoopEq (ps : List RawPlayer) (acc : SidePair) :
    roshanPlayerLoop ps acc
    = ⟨acc.radiant
        + (ps.map (fun p => if 0 < rkOf p ∧ p.player_slot < 128 then (rkOf p : ℚ) else 0)).sum,
       acc.dire
        + (ps.map (fun p => if 0 < rkOf p ∧ ¬ p.player_slot < 128 then (rkOf p : ℚ) else 0)).sum⟩ := by
  induction ps generalizing acc with
  | nil => simp [roshanPlayerLoop]
  | cons p rest ih =>
    by_cases hp : 0 < rkOf p
    · by_cases hs : p.player_slot < 128
      · simp [roshanPlayerLoop, hp, hs, ih, bumpSlot, SidePair.mk.injEq]
        try constructor
        all_goals ring
      · have hs2 : (128 : Int) ≤ p.player_slot := Int.not_lt.mp hs
        simp [roshanPlayerLoop, hp, hs, hs2, ih, bumpSlot, SidePair.mk.injEq]
        try constructor
        all_goals ring
    · simp [roshanPlayerLoop, hp, ih]

/-! ### C1 — sweep detection -/

/-- C1: the claim states a sweep bonus is awarded only when one side reaches
the series win threshold (2 for Bo3, 3 for Bo5) with the other side at
exactly 0.  The code disagrees twice: `sweepBonus` (scoring.ts) pays the
radiant side 15 for a Bo3 finishing 2-1 — despite its own `Bo3 2-0`
comment — because it never checks the loser count; and `addSweepBonuses`
(index.ts / part_003) pays a team sweep for a Bo5 standing 2-0 on the day,
because it uses the fixed threshold 2 regardless of `series_type`. -/
theorem claim_C1_sweep_bonus_failing_eval :
    sweepBonus 1 2 1 = { radiant := 15, dire := 0 }
      ∧ teamSweepPts lineupTeam10 [bo5Game 901, bo5Game 902] = 15 := by
  constructor
  · norm_num [sweepBonus]
  · have h1 : seriesIdsOf [bo5Game 901, bo5Game 902] = [9] := by decide
    have h2 : sweepTeamOf [bo5Game 901, bo5Game 902] 9 = some 10 := by decide
    have h3 : jsToInt lineupTeam10.teamCard = 10 := by decide
    simp [teamSweepPts, h1, h2, h3]

/-! ### C2 — leaderboard ordering -/

/-- C2 counterexample: `scoreDay` of index.ts writes entries in lineup
order without sorting.  With an empty-roster lineup first and a lineup
scoring 27 second, the written list is `[0, 27]`, which is not descending. -/
theorem claim_C2_unsorted_counterexample :
    (scoreDayV1Entries [lineupEmptyA, lineupCapB] [mC2]).map EntryV1.totalPoints = [0, 27]
      ∧ ¬ List.Pairwise entryGeV1 (scoreDayV1Entries [lineupEmptyA, lineupCapB] [mC2]) := by
  have hids : seriesIdsOf [mC2] = [7] := by decide
  have hsw : sweepTeamOf [mC2] 7 = none := by decide
  have hget : mapGet (summarizePlayers mC2) "100"
      = some { id := "100", kills := 1, deaths := 0, assists := 0, last_hits := 0, denies := 0
               obs_placed := 0, camps_stacked := 0, player_slot := 0, isRadiant := true } := by
    decide
  have hget2 : mapGet (summarizePlayers mC2) "" = none := by decide
  have hteam : isRadiantForTeam mC2 "" = none := by decide
  have hw : mC2.radiant_win = true := rfl
  have hd : mC2.duration = 2000 := rfl
  have e1 : scorePlayerInMatch "100" mC2 = 18 := by
    norm_num [scorePlayerInMatch, hget, scorePlayerRowPts, hw, hd]
  have e0 : scorePlayerInMatch "" mC2 = 0 := by
    simp [scorePlayerInMatch, hget2]
  have et : scoreTeamCardInMatch "" mC2 = 0 := by
    simp [scoreTeamCardInMatch, hteam]
  have esw : ∀ (L : LineupDoc) (pid : String), playerSweepPts 15 L [mC2] pid = 0 := by
    intro L pid
    simp [playerSweepPts, hids, hsw]
  have etsw : ∀ L : LineupDoc, teamSweepPts L [mC2] = 0 := by
    intro L
    simp [teamSweepPts, hids, hsw]
  have hca : lineupEmptyA.captain = "" := rfl
  have hcb : lineupCapB.captain = "100" := rfl
  have ha1 : lineupEmptyA.cores = [] := rfl
  have ha2 : lineupEmptyA.supports = [] := rfl
  have ha3 : lineupEmptyA.teamCard = "" := rfl
  have hb1 : lineupCapB.cores = [] := rfl
  have hb2 : lineupCapB.supports = [] := rfl
  have hb3 : lineupCapB.teamCard = "" := rfl
  have hmap : (scoreDayV1Entries [lineupEmptyA, lineupCapB] [mC2]).map EntryV1.totalPoints
      = [0, 27] := by
    simp [scoreDayV1Entries, scoreDayV1Entry, e1, e0, et, esw, etsw, hca, hcb,
      ha1, ha2, ha3, hb1, hb2, hb3, jsOrS]
    norm_num [roundTo2]
  refine ⟨hmap, fun hp => ?_⟩
  have hq : List.Pairwise (fun x y : ℚ => y ≤ x)
      ((scoreDayV1Entries [lineupEmptyA, lineupCapB] [mC2]).map EntryV1.totalPoints) :=
    List.pairwise_map.mpr hp
  rw [hmap] at hq
  have h27 : (27 : ℚ) ≤ 0 := by
    have hx := (List.pairwise_cons.mp hq).1 27 (by simp)
    simpa using hx
  norm_num at h27

/-- C2: the claim as stated — every leaderboard written by `scoreDay` is
sorted descending — fails for the index.ts variant (see the counterexample)
and holds for the part_003 variant, whose `scoreDay` sorts the built entry
list by `totalPoints` descending before the single document write; the
written list is a permutation of the per-lineup entries. -/
theorem claim_C2_scoreDay_v2_sorted :
    ∀ (lineups : List LineupDoc) (ms : List MatchDoc),
      List.Sorted entryGeV2 (scoreDayV2Entries lineups ms)
        ∧ (scoreDayV2Entries lineups ms).Perm (scoreDayV2Prelim lineups ms) := by
  intro lineups ms
  exact ⟨List.sorted_insertionSort entryGeV2 _, List.perm_insertionSort entryGeV2 _⟩

/-! ### C3 — monotonic completeness of the match cache -/

/-- C3 counterexample: `upsertMatchDoc` recomputes `complete` from the
incoming payload and merge-writes every field, so re-upserting match 42
with a nine-player payload flips the stored flag from true to false. -/
theorem claim_C3_upsert_regresses_complete :
    (storeWith42 "42").map MatchDoc.complete = some true
      ∧ ((upsertStore storeWith42 "ti2025" rawNine42) "42").map MatchDoc.complete
          = some false := by
  constructor
  · decide
  · decide

/-- C3: the monotonicity the claim ascribes to `upsertMatchDoc` is in fact
enforced one level up: the poller skips every candidate whose cached record
is already complete, so a poll step never regresses a stored
`complete = true` flag (assuming the fetched detail carries the requested
match id). -/
theorem claim_C3_poller_never_regresses :
    ∀ (now : Int) (tid : String) (s : Store) (row : ListRow) (det : RawMatch) (key : String),
      det.match_id = row.match_id →
      (s key).map MatchDoc.complete = some true →
      ((pollStep now tid s row det) key).map MatchDoc.complete = some true := by
  intro now tid s row det key hdet hkey
  have hup : key ≠ toString (toMatchDocV1 tid det).match_id →
      ((upsertStore s tid det) key).map MatchDoc.complete = some true := by
    intro hne
    simp [upsertStore, hne, hkey]
  have hmid : (toMatchDocV1 tid det).match_id = row.match_id := hdet
  unfold pollStep
  by_cases h0 : row.match_id = 0
  · simp [h0, hkey]
  · rw [if_neg h0]
    cases hE : s (toString row.match_id) with
    | none =>
      simp only []
      split_ifs with hf
      · exact hkey
      · by_cases hk : key = toString row.match_id
        · rw [hk, hE] at hkey
          simp at hkey
        · exact hup (by rw [hmid]; exact hk)
    | some existing =>
      simp only []
      split_ifs with hc hf
      · exact hkey
      · exact hkey
      · by_cases hk : key = toString row.match_id
        · rw [hk, hE] at hkey
          simp at hkey
          simp [hkey] at hc
        · exact hup (by rw [hmid]; exact hk)

/-- C3 witness: the guard theorem applied to the concrete cache holding a
complete match 42 and a nine-player re-fetch of the same id. -/
theorem claim_C3_poller_never_regresses_witness :
    (rawNine42.match_id = row42.match_id
        ∧ (storeWith42 "42").map MatchDoc.complete = some true)
      ∧ ((pollStep 1760000000000 "ti2025" storeWith42 row42 rawNine42) "42").map
          MatchDoc.complete = some true :=
  ⟨⟨rfl, by decide⟩,
    claim_C3_poller_never_regresses 1760000000000 "ti2025" storeWith42 row42 rawNine42 "42"
      rfl (by decide)⟩

/-! ### C4 — structure points from the opposing mask -/

/-- C4: the claim holds for the index.ts helpers — `towersDestroyedByRadiant`
counts the dire mask and yields 11 when every dire structure fell — but
`towersDestroyedBy`/`raxDestroyedBy` in scoring.ts select the OWN mask: with
all 11 radiant towers standing (mask 2047) and every dire tower down, the
radiant side is credited 0 towers instead of 11, and `scoreTeamMatch` pays
a side that destroyed nothing and lost everything 17 structure points. -/
theorem claim_C4_scoring_ts_own_mask :
    towersDestroyedBy Side.radiant 2047 0 = 0
      ∧ raxDestroyedBy Side.radiant 63 0 = 0
      ∧ towersDestroyedByRadiant mRadiantRazedAll = 11
      ∧ barracksDestroyedByRadiant mRadiantRazedAll = 6
      ∧ scoreTeamMatch argsRadiantLostAll = 17 := by
  have hp11 : popcount 2047 = 11 := by decide
  have hp6 : popcount 63 = 6 := by decide
  have hp0 : popcount 0 = 0 := by decide
  have hb : bitCount 0 11 = 0 := by decide
  have hb6 : bitCount 0 6 = 0 := by decide
  have h1 : mRadiantRazedAll.tower_status_dire = 0 := rfl
  have h2 : mRadiantRazedAll.barracks_status_dire = 0 := rfl
  refine ⟨?_, ?_, ?_, ?_, ?_⟩
  · norm_num [towersDestroyedBy, hp11]
  · norm_num [raxDestroyedBy, hp6]
  · norm_num [towersDestroyedByRadiant, h1, hb]
  · norm_num [barracksDestroyedByRadiant, h2, hb6]
  · norm_num [scoreTeamMatch, argsRadiantLostAll, towersDestroyedBy, raxDestroyedBy,
      roshansForSide, firstBloodForSide, hp0]
    decide

/-! ### C5 — lock gate -/

/-- C5 counterexample: the `submitLineup` snippet of part_004 never rejects
a late submission — at 2025-09-11T08:00:00Z with `lockHourUTC = 8` it still
writes the lineup and returns ok (with `locked = true`), where the claim
demands a precondition-failed error. -/
theorem claim_C5_snippet_accepts_after_lock :
    submitLineupSnippet (some "u") "ti2025" "20250911" (some 1) [1, 2, 3] [4, 5]
      (some "A") 3 2 8 1757577600000 = SnipRes.ok true := by
  decide

/-- C5: for the `submitLineup` of index.ts / part_003 the claim is exact:
an authenticated submission with a well-formed tid and 8-digit dateKey
succeeds with the lineup document id exactly when `now` is strictly before
`lockTimestamp(dateKey, lockHourUTC)` and fails with the precondition error
from that instant on. -/
theorem claim_C5_lock_gate_v1 :
    ∀ (uid tid dateKey : String) (lockHourUTC now : Int),
      tid ≠ "" → isEightDigits dateKey = true →
      submitLineup (some uid) tid dateKey lockHourUTC now
        = (if lockTimestamp dateKey lockHourUTC ≤ now then SubmitRes.failedPrecondition
           else SubmitRes.ok (tid ++ "_" ++ dateKey ++ "_" ++ uid)) := by
  intro uid tid dateKey lockHourUTC now htid hdk
  simp [submitLineup, htid, hdk]

/-- C5 witness: the gate theorem at the concrete boundary of the claim —
dateKey 20250911, lock hour 8: one second before
2025-09-11T08:00:00Z (epoch ms 1757577600000) the submission is accepted;
at the instant itself it is rejected. -/
theorem claim_C5_lock_gate_v1_witness :
    ("ti2025" ≠ "" ∧ isEightDigits "20250911" = true)
      ∧ submitLineup (some "u") "ti2025" "20250911" 8 1757577599000
          = SubmitRes.ok "ti2025_20250911_u"
      ∧ submitLineup (some "u") "ti2025" "20250911" 8 1757577600000
          = SubmitRes.failedPrecondition := by
  refine ⟨⟨by decide, by decide⟩, ?_, ?_⟩
  · exact (claim_C5_lock_gate_v1 "u" "ti2025" "20250911" 8 1757577599000
      (by decide) (by decide)).trans (by decide)
  · exact (claim_C5_lock_gate_v1 "u" "ti2025" "20250911" 8 1757577600000
      (by decide) (by decide)).trans (by decide)

/-! ### C6 — win-under-25-minutes boundary -/

/-- C6: in both player scorers the fast-win bonus is exactly 15 extra points
granted when the player won and the duration is strictly below 1500 seconds:
relative to the same input evaluated at duration 1500, the score differs by
15 exactly in that case — so duration 1499 earns it, 1500 does not, and a
losing row never does. -/
theorem claim_C6_fast_win_boundary :
    (∀ (p : PStats) (d : Int),
        scorePlayerMatch p d
          = scorePlayerMatch p 1500 + (if p.win = true ∧ d < 1500 then 15 else 0))
      ∧ (∀ (pid : String) (m : MatchDoc),
          scorePlayerInMatch pid m
            = scorePlayerInMatch pid { m with duration := 1500 }
              + (if isWinOf pid m = true ∧ m.duration < 1500 then 15 else 0)) := by
  constructor
  · intro p d
    have h60 : (25 * 60 : Int) = 1500 := by norm_num
    by_cases hw : p.win <;> by_cases hd : d < 1500 <;>
      · simp [scorePlayerMatch, hw, hd, h60]
        try ring
  · intro pid m
    have hsame : summarizePlayers { m with duration := 1500 } = summarizePlayers m := rfl
    have h60 : (25 * 60 : Int) = 1500 := by norm_num
    unfold scorePlayerInMatch isWinOf
    rw [hsame]
    cases hget : mapGet (summarizePlayers m) pid with
    | none => simp
    | some row =>
      simp only []
      unfold scorePlayerRowPts
      by_cases hw : (row.isRadiant && m.radiant_win) || (!row.isRadiant && !m.radiant_win) <;>
        by_cases hd : m.duration < 1500 <;>
          · simp [hw, hd, h60]
            try ring

/-! ### C7 — roshan attribution with fallback -/

/-- C7 counterexample: `roshansByTeam` of index.ts has no fallback — on a
record with no objective events it returns 0/0, even though the per-player
roshan counters sum to 2 for radiant (and the part_003 version returns 2/0
on the same record). -/
theorem claim_C7_v1_has_no_fallback :
    mRoshFallback.objectives = []
      ∧ roshansByTeam mRoshFallback = { radiant := 0, dire := 0 }
      ∧ roshanCounterSums mRoshFallback = { radiant := 2, dire := 0 }
      ∧ roshansByTeamV2 mRoshFallback = { radiant := 2, dire := 0 } := by
  have hobj : mRoshFallback.objectives = [] := rfl
  have hpl : mRoshFallback.players
      = [{ blankPlayer with
           account_id := some 100, player_slot := 0, roshans_killed := some 2 }] := rfl
  refine ⟨hobj, ?_, ?_, ?_⟩
  · simp [roshansByTeam, hobj]
  · norm_num [roshanCounterSums, hpl, rkOf, blankPlayer]
  · norm_num [roshansByTeamV2, roshanObjLoop, roshanPlayerLoop, hobj, hpl, rkOf,
      blankPlayer, bumpSlot]

/-- C7: the part_003 `roshansByTeam` implements exactly the claimed rule —
when the record has at least one roshan-kill objective event the side totals
are the event counts bucketed by the player slot of the event (slot below
128 radiant, otherwise dire), and when it has none they are the bucketed
sums of the positive per-player roshan counters. -/
theorem claim_C7_roshan_fallback_v2 :
    ∀ m : MatchDoc,
      roshansByTeamV2 m
        = if hasRoshanEvent m then roshanEventCounts m else roshanCounterSums m := by
  intro m
  unfold roshansByTeamV2
  rw [roshanObjLoopEq]
  by_cases h : m.objectives.any (fun o => o.otype == "CHAT_MESSAGE_ROSHAN_KILL")
  · simp [h, hasRoshanEvent, roshanEventCounts]
  · rw [roshanPlayerLoopEq]
    simp [h, hasRoshanEvent, roshanCounterSums]

/-! ### C8 — kill-assist combo threshold -/

/-- C8 counterexample: `scorePlayerMatch` of scoring.ts uses the strict
test `kills + assists > 20`: a losing row with 10 kills and 10 assists
scores 50 (30 + 20, no combo bonus), while 10 kills and 11 assists score
54 (30 + 22 + 2) — so a row at exactly 20 does NOT receive the bonus the
claim requires. -/
theorem claim_C8_exact_20_gets_no_bonus :
    scorePlayerMatch rowKA20 2000 = 50 ∧ scorePlayerMatch rowKA21 2000 = 54 := by
  constructor
  · norm_num [scorePlayerMatch, rowKA20]
  · norm_num [scorePlayerMatch, rowKA21, rowKA20]

/-- C8: the two player scorers disagree at the boundary: scoring.ts adds the
+2 combo exactly when kills + assists exceeds 20 (20 excluded), while the
index.ts / part_003 scorer adds it exactly when kills + assists is at least
20 (20 included) — each isolated here against the same function with kills
and assists zeroed out. -/
theorem claim_C8_combo_thresholds :
    (∀ (p : PStats) (d : Int),
        scorePlayerMatch p d
          = scorePlayerMatch { p with kills := 0, assists := 0 } d
            + (p.kills : ℚ) * 3 + (p.assists : ℚ) * 2
            + (if 20 < p.kills + p.assists then 2 else 0))
      ∧ (∀ (row : SummRow) (w : Bool) (d : Int),
          scorePlayerRowPts row w d
            = scorePlayerRowPts { row with kills := 0, assists := 0 } w d
              + (row.kills : ℚ) * 3 + (row.assists : ℚ) * 2
              + (if 20 ≤ row.kills + row.assists then 2 else 0)) := by
  constructor
  · intro p d
    by_cases hc : 20 < p.kills + p.assists <;>
      simp [scorePlayerMatch, hc] <;> ring
  · intro row w d
    by_cases hc : 20 ≤ row.kills + row.assists <;>
      simp [scorePlayerRowPts, hc] <;> ring

/-! ### C9 — team card that matches neither side -/

/-- C9: when the team selection matches neither the numeric radiant nor dire
team id and neither normalized team name, `isRadiantForTeam` resolves to
null and `scoreTeamCardInMatch` returns exactly 0 — no structure, roshan,
first-blood or win points accrue from a match the selected team did not
play in. -/
theorem claim_C9_unmatched_team_zero :
    ∀ (m : MatchDoc) (sel : String),
      (isDigitString sel = true →
        jsToInt sel ≠ m.radiant_team_id ∧ jsToInt sel ≠ m.dire_team_id) →
      ¬ (teamKey m.radiant_name ≠ "" ∧ teamKey sel ≠ ""
          ∧ teamKey m.radiant_name = teamKey sel) →
      ¬ (teamKey m.dire_name ≠ "" ∧ teamKey sel ≠ ""
          ∧ teamKey m.dire_name = teamKey sel) →
      scoreTeamCardInMatch sel m = 0 := by
  intro m sel h1 h2 h3
  have hnone : isRadiantForTeam m sel = none := by
    unfold isRadiantForTeam
    by_cases hsel : sel = ""
    · simp [hsel]
    · rw [if_neg hsel]
      have hid : (if isDigitString sel then
          if m.radiant_team_id = jsToInt sel then some true
          else if m.dire_team_id = jsToInt sel then some false
          else none
        else none) = (none : Option Bool) := by
        by_cases hd : isDigitString sel
        · obtain ⟨hr, hdd⟩ := h1 hd
          rw [if_pos hd, if_neg (fun hc => hr hc.symm), if_neg (fun hc => hdd hc.symm)]
        · exact if_neg hd
      rw [hid]
      simp only []
      rw [if_neg h2, if_neg h3]
  simp [scoreTeamCardInMatch, hnone]

/-- C9 witness: selection 999 against a match of teams 1 (Team Alpha) and
2 (Team Beta) satisfies the no-match hypotheses and scores 0. -/
theorem claim_C9_unmatched_team_zero_witness :
    ((isDigitString "999" = true →
        jsToInt "999" ≠ mTeams12.radiant_team_id ∧ jsToInt "999" ≠ mTeams12.dire_team_id)
      ∧ ¬ (teamKey mTeams12.radiant_name ≠ "" ∧ teamKey "999" ≠ ""
            ∧ teamKey mTeams12.radiant_name = teamKey "999")
      ∧ ¬ (teamKey mTeams12.dire_name ≠ "" ∧ teamKey "999" ≠ ""
            ∧ teamKey mTeams12.dire_name = teamKey "999"))
      ∧ scoreTeamCardInMatch "999" mTeams12 = 0 :=
  ⟨⟨by decide, by decide, by decide⟩,
    claim_C9_unmatched_team_zero mTeams12 "999" (by decide) (by decide) (by decide)⟩

/-! ### C10 — roster member without a stat row -/

/-- C10: if no player row of the match carries the given account id — rows
with a missing or empty id having been dropped by `summarizePlayers` — then
`scorePlayerInMatch` returns exactly 0 for that id. -/
theorem claim_C10_absent_player_zero :
    ∀ (m : MatchDoc) (pid : String),
      (∀ p ∈ m.players, playerIdString p = "" ∨ playerIdString p ≠ pid) →
      scorePlayerInMatch pid m = 0 := by
  intro m pid h
  have hnone : mapGet (summarizePlayers m) pid = none := by
    apply List.find?_eq_none.mpr
    intro r hr
    rw [List.mem_reverse] at hr
    obtain ⟨p, hp, hmk⟩ := List.mem_filterMap.mp hr
    unfold mkSummRow at hmk
    by_cases hid : playerIdString p = ""
    · simp [hid] at hmk
    · rw [if_neg hid] at hmk
      have hrid : r.id = playerIdString p := by
        cases hmk
        rfl
      rcases h p hp with h1 | h2
      · exact absurd h1 hid
      · simp [hrid, h2]
  simp [scorePlayerInMatch, hnone]

/-- C10 witness: player id 7 has no row in a match whose only player row
carries account id 5, so the score is 0. -/
theorem claim_C10_absent_player_zero_witness :
    (∀ p ∈ mOnlyPlayer5.players, playerIdString p = "" ∨ playerIdString p ≠ "7")
      ∧ scorePlayerInMatch "7" mOnlyPlayer5 = 0 :=
  ⟨by decide, claim_C10_absent_player_zero mOnlyPlayer5 "7" (by decide)⟩
